import Mathlib

/-!
Verification of the dexcord glucose-service client (src/dexcom.rs, src/main.rs).

The embedding models response bodies as a raw text string paired with its JSON
parse (when the text is valid JSON), file-system effects as explicit values of
type `Option Json` (the content of api_cache.json), and the network as an
oracle of responses passed in explicitly.  Each operation of `Api` returns its
result together with the list of observable events it performed (HTTP requests
issued, cache writes) and the resulting store content.
-/

namespace Dexcom

/-- A JSON value, as parsed by serde_json. Numbers are restricted to integers,
which is all the dexcom schemas use (the `Value` field is a u32). -/
inductive Json : Type where
  | str (s : String)
  | num (n : Int)
  | bool (b : Bool)
  | null
  | arr (xs : List Json)
  | obj (fields : List (String × Json))

/-- An HTTP response body: the raw text, and its parse as a JSON document
(`none` when the text is not valid JSON). -/
structure Body where
  raw : String
  parsed : Option Json

/-- The application ID (src/dexcom.rs line 11). -/
def APPLICATION_ID : String := "d89443d2-327c-4a6f-89e5-496bbb0317db"

/-- The oldest glucose measurement to fetch (src/dexcom.rs line 19). -/
def DEFAULT_MINUTES : Nat := 60

/-- The maximum number of glucose measurements to fetch (src/dexcom.rs line 21). -/
def DEFAULT_MAX_COUNT : Nat := 1

/-- The error enum of src/dexcom.rs lines 316-337. -/
inductive Error : Type where
  | InvalidPassword
  | MaxAuthenticationAttemptsReached
  | SessionNotFound
  | SessionInvalid
  | ArgUsername
  | ArgPassword
  | MaxRetriesReached
  | Unknown (s : String)
deriving DecidableEq

/-- The anyhow error value propagated by the fallible operations: either a
`dexcom::Error` or a transport (reqwest) error. -/
inductive AnyError : Type where
  | dexcom (e : Error)
  | reqwest
deriving DecidableEq

/-- A single glucose measurement (src/dexcom.rs lines 284-301). -/
structure GlucoseMeasurement where
  wt : String
  st : String
  dt : String
  value : Nat
  trend : String
deriving DecidableEq

/-- An error response from the API (src/dexcom.rs lines 304-314). -/
structure ErrorResponse where
  code : Error
  message : String
  description : String
  type_name : String
deriving DecidableEq

/-- Cachable information regarding the API (src/dexcom.rs lines 171-179). -/
structure ApiCache where
  username : String
  account_id : String
  session_id : String
deriving DecidableEq

/-- The default ApiCache value (derive(Default): all fields empty). -/
def ApiCache.default : ApiCache := ⟨"", "", ""⟩

/-- The body for the account ID request (src/dexcom.rs lines 245-255);
field `username` is serialized as `accountName`. -/
structure AccountIdRequest where
  username : String
  password : String
  application_id : String
deriving DecidableEq

/-- The body for the session ID request (src/dexcom.rs lines 258-268). -/
structure SessionIdRequest where
  account_id : String
  password : String
  application_id : String
deriving DecidableEq

/-- The body for the measure glucose request (src/dexcom.rs lines 271-281). -/
structure MeasureGlucoseRequest where
  session_id : String
  minutes : Nat
  max_count : Nat
deriving DecidableEq

/-- An HTTP POST issued by the client, with its (serialized) request body. -/
inductive Request : Type where
  | accountId (r : AccountIdRequest)
  | sessionId (r : SessionIdRequest)
  | measureGlucose (r : MeasureGlucoseRequest)
deriving DecidableEq

/-- An observable side effect of an operation: an HTTP request issued, or a
write of the cache file (`ApiCache::save`). -/
inductive Event : Type where
  | request (r : Request)
  | save (c : ApiCache)
deriving DecidableEq

/-- Field lookup in a serde_json object (first binding wins). -/
def jsonLookup (name : String) : List (String × Json) → Option Json
  | [] => none
  | (k, v) :: rest => if k = name then some v else jsonLookup name rest

/-- Deserializing a Rust `String` field from a JSON value. -/
def decodeStr : Json → Option String
  | .str s => some s
  | _ => none

/-- Deserializing a Rust `u32` field from a JSON value. -/
def decodeU32 : Json → Option Nat
  | .num n => if 0 ≤ n ∧ n < 4294967296 then some n.toNat else none
  | _ => none

/-- serde deserialization of the `Error` enum (src/dexcom.rs lines 316-337):
unit variants deserialize from their (possibly renamed) name as a JSON string;
the newtype variant `Unknown` deserializes from a one-entry map. -/
def decodeError : Json → Option Error
  | .str "AccountPasswordInvalid" => some .InvalidPassword
  | .str "MaxAuthenticationAttemptsReached" => some .MaxAuthenticationAttemptsReached
  | .str "SessionIdNotFound" => some .SessionNotFound
  | .str "SessionNotValid" => some .SessionInvalid
  | .str "ArgUsername" => some .ArgUsername
  | .str "ArgPassword" => some .ArgPassword
  | .str "MaxRetriesReached" => some .MaxRetriesReached
  | .obj [("Unknown", .str s)] => some (.Unknown s)
  | _ => none

/-- serde_json::from_str::\<String\>: succeeds exactly when the document is a
bare JSON string. -/
def decodeBareString : Option Json → Option String
  | some (.str s) => some s
  | _ => none

/-- serde_json::from_str::\<ErrorResponse\>: the document must be an object
with fields `Code` (deserializing into `Error`), `Message`, `SubCode`,
`TypeName` (strings); unknown extra fields are ignored. -/
def decodeErrorResponse : Option Json → Option ErrorResponse
  | some (.obj fields) => do
      let codeJson ← jsonLookup "Code" fields
      let code ← decodeError codeJson
      let message ← jsonLookup "Message" fields >>= decodeStr
      let description ← jsonLookup "SubCode" fields >>= decodeStr
      let type_name ← jsonLookup "TypeName" fields >>= decodeStr
      pure ⟨code, message, description, type_name⟩
  | _ => none

/-- serde deserialization of one `GlucoseMeasurement` from a JSON value
(renamed fields `WT`, `ST`, `DT`, `Value`, `Trend`). -/
def decodeMeasurement : Json → Option GlucoseMeasurement
  | .obj fields => do
      let wt ← jsonLookup "WT" fields >>= decodeStr
      let st ← jsonLookup "ST" fields >>= decodeStr
      let dt ← jsonLookup "DT" fields >>= decodeStr
      let value ← jsonLookup "Value" fields >>= decodeU32
      let trend ← jsonLookup "Trend" fields >>= decodeStr
      pure ⟨wt, st, dt, value, trend⟩
  | _ => none

/-- serde_json::from_str::\<Vec\<GlucoseMeasurement\>\>: the document must be a
JSON array whose every element deserializes. -/
def decodeMeasurementList : Option Json → Option (List GlucoseMeasurement)
  | some (.arr xs) => xs.mapM decodeMeasurement
  | _ => none

/-- serde serialization of `ApiCache` (derive(Serialize), field order as
declared, no renames). -/
def encodeApiCache (c : ApiCache) : Json :=
  .obj [("username", .str c.username),
        ("account_id", .str c.account_id),
        ("session_id", .str c.session_id)]

/-- serde_json::from_reader::\<ApiCache\> from the cache file content. -/
def decodeApiCache : Json → Option ApiCache
  | .obj fields => do
      let username ← jsonLookup "username" fields >>= decodeStr
      let account_id ← jsonLookup "account_id" fields >>= decodeStr
      let session_id ← jsonLookup "session_id" fields >>= decodeStr
      pure ⟨username, account_id, session_id⟩
  | _ => none

/-- ApiCache::save (src/dexcom.rs lines 219-235): overwrites the cache file
with the serialized record. -/
def ApiCache.save (c : ApiCache) : Option Json :=
  some (encodeApiCache c)

/-- Result of ApiCache::try_load_cache together with its observable effects:
the returned value (`Except.error msg` models the `.unwrap()` panic when the
file exists but fails to deserialize; `Except.ok none` means the cache is
treated as absent), the events performed, and the resulting file content. -/
structure LoadResult where
  loaded : Except String (Option ApiCache)
  events : List Event
  store : Option Json

/-- ApiCache::try_load_cache (src/dexcom.rs lines 181-217).  The store is the
content of api_cache.json (`none` when the file is absent or unopenable).
On the username-mismatch branch the deserialized record is not moved out, so
it is dropped at function exit and `impl Drop for ApiCache` (lines 237-241)
saves the stale record back to the file; on the deserialization-failure
branch the panic happens before any record exists, so nothing is written. -/
def ApiCache.try_load_cache (store : Option Json) (username : String) :
    LoadResult :=
  match store with
  | none => ⟨.ok none, [], none⟩
  | some content =>
    match decodeApiCache content with
    | none =>
      ⟨.error "The API cache is invalid (perhaps try deleting it)", [], some content⟩
    | some cached_s =>
      if cached_s.username ≠ username then
        -- cached_s is dropped here: Drop for ApiCache rewrites the file
        ⟨.ok none, [.save cached_s], ApiCache.save cached_s⟩
      else ⟨.ok (some cached_s), [], some content⟩

/-- The Api struct (src/dexcom.rs lines 24-31); the reqwest client itself
carries no state the claims depend on. -/
structure Api where
  password : String
  cache : ApiCache
deriving DecidableEq

/-- Interpretation of a derivation-response body, shared verbatim by
Api::get_account_id (src/dexcom.rs lines 86-97) and Api::get_session_id
(lines 113-125): first try a bare JSON string, else the error schema, else
`Error::Unknown` carrying the raw body text. -/
def interpretIdBody (b : Body) : Except AnyError String :=
  match decodeBareString b.parsed with
  | some id => .ok id
  | none =>
    match decodeErrorResponse b.parsed with
    | some e => .error (.dexcom e.code)
    | none => .error (.dexcom (.Unknown b.raw))

/-- Api::get_account_id (src/dexcom.rs lines 72-98).  `resp` is the remote
response (`none` = transport failure).  Returns the result and the events
performed (always exactly the one POST). -/
def Api.get_account_id (a : Api) (resp : Option Body) :
    Except AnyError String × List Event :=
  (match resp with
   | none => .error .reqwest
   | some b => interpretIdBody b,
   [.request (.accountId ⟨a.cache.username, a.password, APPLICATION_ID⟩)])

/-- Api::get_session_id (src/dexcom.rs lines 100-126). -/
def Api.get_session_id (a : Api) (resp : Option Body) :
    Except AnyError String × List Event :=
  (match resp with
   | none => .error .reqwest
   | some b => interpretIdBody b,
   [.request (.sessionId ⟨a.cache.account_id, a.password, APPLICATION_ID⟩)])

/-- The outcome of Api::new: a constructed manager, a propagated error, or a
process abort from the `.unwrap()` inside try_load_cache. -/
inductive Outcome : Type where
  | ok (a : Api)
  | err (e : AnyError)
  | panicked (msg : String)
deriving DecidableEq

/-- Result of Api::new: outcome, the events performed, and the resulting
content of the cache file. -/
structure NewResult where
  outcome : Outcome
  events : List Event
  store : Option Json

/-- Api::new (src/dexcom.rs lines 33-69).  `store` is the cache-file content
at entry; `r1` and `r2` are the remote responses to the account-ID and
session-ID derivation requests (consumed only if those requests are made).
The events and resulting store of the cache load (including the Drop-save of
a stale mismatched record inside try_load_cache) are threaded through.  When
a derivation fails, the partially initialized `Api` is dropped and
`impl Drop for ApiCache` (lines 237-241) saves the cache before the error
returns. -/
def Api.new (username password : String) (store : Option Json)
    (r1 r2 : Option Body) : NewResult :=
  if username = "" then ⟨.err (.dexcom .ArgUsername), [], store⟩
  else if password = "" then ⟨.err (.dexcom .ArgPassword), [], store⟩
  else
    let load := ApiCache.try_load_cache store username
    match load.loaded with
    | .error msg => ⟨.panicked msg, load.events, load.store⟩
    | .ok (some c) =>
      -- cache loaded and valid: adopt it (the username write is a no-op)
      ⟨.ok ⟨password, { c with username := username }⟩, load.events, load.store⟩
    | .ok none =>
      -- cache absent or username mismatch: refresh
      let s : Api := ⟨password, { ApiCache.default with username := username }⟩
      let acct := s.get_account_id r1
      match acct.1 with
      | .error e =>
        ⟨.err e, load.events ++ acct.2 ++ [.save s.cache], ApiCache.save s.cache⟩
      | .ok account_id =>
        let s : Api := { s with cache := { s.cache with account_id := account_id } }
        let sess := s.get_session_id r2
        match sess.1 with
        | .error e =>
          ⟨.err e, load.events ++ acct.2 ++ sess.2 ++ [.save s.cache],
           ApiCache.save s.cache⟩
        | .ok session_id =>
          let s : Api := { s with cache := { s.cache with session_id := session_id } }
          ⟨.ok s, load.events ++ acct.2 ++ sess.2 ++ [.save s.cache],
           ApiCache.save s.cache⟩

/-- Result of Api::get_latest_glucose: the returned value, the (possibly
mutated) Api, the events performed, and the resulting cache-file content. -/
structure GlucoseResult where
  result : Except AnyError (Option GlucoseMeasurement)
  api : Api
  events : List Event
  store : Option Json

/-- Api::get_latest_glucose (src/dexcom.rs lines 128-165).  `resp` is the
response to the readings POST; `renew` is the response to the session-renewal
POST, consumed only when the readings response is the SessionNotValid error. -/
def Api.get_latest_glucose (a : Api) (store : Option Json)
    (resp renew : Option Body) : GlucoseResult :=
  let req : Event :=
    .request (.measureGlucose ⟨a.cache.session_id, DEFAULT_MINUTES, DEFAULT_MAX_COUNT⟩)
  match resp with
  | none => ⟨.error .reqwest, a, [req], store⟩
  | some b =>
    match decodeMeasurementList b.parsed with
    | some response =>
      match response with
      | [] => ⟨.ok none, a, [req], store⟩
      | m :: _ => ⟨.ok (some m), a, [req], store⟩
    | none =>
      match decodeErrorResponse b.parsed with
      | some e =>
        match e.code with
        | .SessionInvalid =>
          -- the session just expired: renew it for the next request
          let sess := a.get_session_id renew
          match sess.1 with
          | .error e2 => ⟨.error e2, a, req :: sess.2, store⟩
          | .ok session_id =>
            let a2 : Api := { a with cache := { a.cache with session_id := session_id } }
            ⟨.error (.dexcom .SessionInvalid), a2,
              req :: sess.2 ++ [.save a2.cache], ApiCache.save a2.cache⟩
        | c => ⟨.error (.dexcom c), a, [req], store⟩
      | none => ⟨.error (.dexcom (.Unknown b.raw)), a, [req], store⟩

end Dexcom

/-- format_status (src/main.rs lines 88-104). -/
def format_status (value : Nat) : String :=
  if 40 ≤ value ∧ value < 60 then
    "I'm in sugar withdrawls, send help (" ++ toString value ++ " mg/dL)"
  else if 60 ≤ value ∧ value < 80 then
    "Tell me to eat something, I'm a little low (" ++ toString value ++ " mg/dL)"
  else if 80 ≤ value ∧ value < 200 then
    "We chillin (" ++ toString value ++ " mg/dL)"
  else if 200 ≤ value ∧ value < 300 then
    "I'm a little high, tell me to do some pushups (" ++ toString value ++ " mg/dL)"
  else
    "I'm currently ODing on sugar, send help (" ++ toString value ++ " mg/dL)"

/-- The status string computed by the main loop from a measurement
(src/main.rs line 62): format_status applied to the Value field. -/
def statusForMeasurement (m : Dexcom.GlucoseMeasurement) : String :=
  format_status m.value

namespace Dexcom

deriving instance DecidableEq for Except

/-- The error code carried by a response, when the response deserializes as
the error schema of the source. -/
def respCode : Option Body → Option Error
  | none => none
  | some b => (decodeErrorResponse b.parsed).map ErrorResponse.code

/-- The error-schema reading used by claim C4, following the words of the
spec (section 4.2b): a JSON object with string fields Code, Message, SubCode
and TypeName parses as the error schema, and the Code string is returned
whether or not it is a recognized code.  This definition follows the claim,
not the source; the source instead fails ErrorResponse deserialization on an
unrecognized Code. -/
def specErrorSchemaCode : Option Json → Option String
  | some (.obj fields) => do
      let code ← jsonLookup "Code" fields >>= decodeStr
      let _ ← jsonLookup "Message" fields >>= decodeStr
      let _ ← jsonLookup "SubCode" fields >>= decodeStr
      let _ ← jsonLookup "TypeName" fields >>= decodeStr
      pure code
  | _ => none

/-- A concrete client state used by the concrete evaluations. -/
def testApi : Api := ⟨"pw", ⟨"alice", "acct", "sess"⟩⟩

/-- A response body holding the SessionNotValid error object. -/
def sessionInvalidBody : Body :=
  ⟨"\x7b\"Code\":\"SessionNotValid\",\"Message\":\"m\",\"SubCode\":\"s\",\"TypeName\":\"t\"\x7d",
   some (.obj [("Code", .str "SessionNotValid"), ("Message", .str "m"),
     ("SubCode", .str "s"), ("TypeName", .str "t")])⟩

/-- A response body holding the AccountPasswordInvalid error object. -/
def invalidPasswordBody : Body :=
  ⟨"\x7b\"Code\":\"AccountPasswordInvalid\",\"Message\":\"m\",\"SubCode\":\"s\",\"TypeName\":\"t\"\x7d",
   some (.obj [("Code", .str "AccountPasswordInvalid"), ("Message", .str "m"),
     ("SubCode", .str "s"), ("TypeName", .str "t")])⟩

/-- A response body holding an error object whose Code is MaxRetriesReached. -/
def maxRetriesBody : Body :=
  ⟨"\x7b\"Code\":\"MaxRetriesReached\",\"Message\":\"m\",\"SubCode\":\"s\",\"TypeName\":\"t\"\x7d",
   some (.obj [("Code", .str "MaxRetriesReached"), ("Message", .str "m"),
     ("SubCode", .str "s"), ("TypeName", .str "t")])⟩

/-- A response body holding the error schema with the unrecognized code
SomeNewCode and message m1. -/
def unknownCodeBody1 : Body :=
  ⟨"\x7b\"Code\":\"SomeNewCode\",\"Message\":\"m1\",\"SubCode\":\"s\",\"TypeName\":\"t\"\x7d",
   some (.obj [("Code", .str "SomeNewCode"), ("Message", .str "m1"),
     ("SubCode", .str "s"), ("TypeName", .str "t")])⟩

/-- A response body holding the error schema with the unrecognized code
SomeNewCode and message m2. -/
def unknownCodeBody2 : Body :=
  ⟨"\x7b\"Code\":\"SomeNewCode\",\"Message\":\"m2\",\"SubCode\":\"s\",\"TypeName\":\"t\"\x7d",
   some (.obj [("Code", .str "SomeNewCode"), ("Message", .str "m2"),
     ("SubCode", .str "s"), ("TypeName", .str "t")])⟩

end Dexcom

namespace Dexcom

/-- Serialization then deserialization of an ApiCache is the identity. -/
theorem decodeApiCache_encodeApiCache (c : ApiCache) :
    decodeApiCache (encodeApiCache c) = some c := rfl

/-- Loading a store that holds exactly the serialized record `c`, for the
username recorded in `c`, yields `c` as a valid cache, performs no write, and
leaves the store unchanged. -/
theorem try_load_cache_save (c : ApiCache) :
    ApiCache.try_load_cache (ApiCache.save c) c.username =
      ⟨.ok (some c), [], ApiCache.save c⟩ := by
  simp [ApiCache.try_load_cache, ApiCache.save, decodeApiCache_encodeApiCache]

/-- Constructing against a store holding exactly the saved record for the same
username adopts the record with no events. -/
theorem new_adopts_saved (c : ApiCache) (password : String) (r1 r2 : Option Body)
    (hu : c.username ≠ "") (hp : password ≠ "") :
    Api.new c.username password (ApiCache.save c) r1 r2 =
      ⟨.ok ⟨password, c⟩, [], ApiCache.save c⟩ := by
  unfold Api.new
  rw [if_neg hu, if_neg hp, try_load_cache_save c]

end Dexcom

open Dexcom

/-- Claim C9: the status string is a pure function of the glucose value, and
on full reading objects with values 150, 45 and 310 it equals the three
expected strings. -/
theorem C9_status_string :
    statusForMeasurement
      ⟨"Date(1700000000000)", "2023-11-14T22:13:20", "2023-11-14T14:13:20", 150, "Flat"⟩ =
      "We chillin (150 mg/dL)" ∧
    statusForMeasurement
      ⟨"Date(1700000000000)", "2023-11-14T22:13:20", "2023-11-14T14:13:20", 45, "Flat"⟩ =
      "I'm in sugar withdrawls, send help (45 mg/dL)" ∧
    statusForMeasurement
      ⟨"Date(1700000000000)", "2023-11-14T22:13:20", "2023-11-14T14:13:20", 310, "Flat"⟩ =
      "I'm currently ODing on sugar, send help (310 mg/dL)" ∧
    ∀ m : GlucoseMeasurement, statusForMeasurement m = format_status m.value :=
  ⟨rfl, rfl, rfl, fun _ => rfl⟩

/-- Claim C3 (evaluation at the failing input): when the cache file exists but
fails to deserialize, try_load_cache panics instead of treating the cache as
absent, and Api::new aborts instead of re-deriving. -/
theorem C3_corrupt_cache_panics :
    ApiCache.try_load_cache (some (Json.str "oops")) "alice" =
      ⟨.error "The API cache is invalid (perhaps try deleting it)", [],
       some (Json.str "oops")⟩ ∧
    (Api.new "alice" "pw" (some (Json.str "oops")) none none).outcome =
      .panicked "The API cache is invalid (perhaps try deleting it)" ∧
    (Api.new "alice" "pw" (some (Json.str "oops")) none none).events = [] :=
  ⟨rfl, rfl, rfl⟩

/-- Claim C6: empty username fails with ArgUsername, empty password with
ArgPassword, in each case with no events (so no HTTP request) and an
untouched store. -/
theorem C6_empty_credentials (username password : String) (store : Option Json)
    (r1 r2 : Option Body) :
    (username = "" →
      Api.new username password store r1 r2 = ⟨.err (.dexcom .ArgUsername), [], store⟩) ∧
    (username ≠ "" → password = "" →
      Api.new username password store r1 r2 = ⟨.err (.dexcom .ArgPassword), [], store⟩) := by
  constructor
  · intro h
    simp [Api.new, h]
  · intro h hp
    simp [Api.new, h, hp]

/-- Witness for C6 at concrete inputs. -/
theorem C6_empty_credentials_witness :
    Api.new "" "pw" none none none = ⟨.err (.dexcom .ArgUsername), [], none⟩ ∧
    Api.new "alice" "" none none none = ⟨.err (.dexcom .ArgPassword), [], none⟩ :=
  ⟨(C6_empty_credentials "" "pw" none none none).1 rfl,
   (C6_empty_credentials "alice" "" none none none).2 (by decide) rfl⟩

/-- Claim C7: saving a SessionCache and reloading it for the same username
yields the identical record as a valid cache, and a construction against that
store adopts it with zero events (no re-derivation). -/
theorem C7_cache_roundtrip (c : ApiCache) (password : String) (r1 r2 : Option Body)
    (hu : c.username ≠ "") (hp : password ≠ "") :
    ApiCache.try_load_cache (ApiCache.save c) c.username =
      ⟨.ok (some c), [], ApiCache.save c⟩ ∧
    Api.new c.username password (ApiCache.save c) r1 r2 =
      ⟨.ok ⟨password, c⟩, [], ApiCache.save c⟩ :=
  ⟨try_load_cache_save c, new_adopts_saved c password r1 r2 hu hp⟩

/-- Witness for C7 at a concrete record. -/
theorem C7_cache_roundtrip_witness :
    ApiCache.try_load_cache (ApiCache.save ⟨"alice", "acct", "sess"⟩) "alice" =
      ⟨.ok (some ⟨"alice", "acct", "sess"⟩), [],
       ApiCache.save ⟨"alice", "acct", "sess"⟩⟩ ∧
    Api.new "alice" "pw" (ApiCache.save ⟨"alice", "acct", "sess"⟩) none none =
      ⟨.ok ⟨"pw", ⟨"alice", "acct", "sess"⟩⟩, [], ApiCache.save ⟨"alice", "acct", "sess"⟩⟩ :=
  C7_cache_roundtrip ⟨"alice", "acct", "sess"⟩ "pw" none none (by decide) (by decide)

namespace Dexcom

/-- A cache record returned as valid by try_load_cache carries the requested
username. -/
theorem try_load_cache_username {store : Option Json} {username : String}
    {c : ApiCache}
    (h : (ApiCache.try_load_cache store username).loaded = .ok (some c)) :
    c.username = username := by
  cases store with
  | none => simp [ApiCache.try_load_cache] at h
  | some content =>
    simp only [ApiCache.try_load_cache] at h
    cases hdec : decodeApiCache content with
    | none => rw [hdec] at h; simp at h
    | some cached =>
      rw [hdec] at h
      by_cases hne : cached.username = username
      · simp [hne] at h
        rw [← h]
        exact hne
      · simp [hne] at h

/-- A load whose value is a valid record performed no write and left the
store unchanged. -/
theorem try_load_cache_valid {store : Option Json} {username : String}
    {c : ApiCache}
    (h : (ApiCache.try_load_cache store username).loaded = .ok (some c)) :
    ApiCache.try_load_cache store username = ⟨.ok (some c), [], store⟩ := by
  cases store with
  | none => simp [ApiCache.try_load_cache] at h
  | some content =>
    simp only [ApiCache.try_load_cache] at h ⊢
    cases hdec : decodeApiCache content with
    | none => rw [hdec] at h; simp at h
    | some cached =>
      rw [hdec] at h
      by_cases hne : cached.username = username
      · simp [hne] at h ⊢
        exact h
      · simp [hne] at h

/-- The cache load never issues an HTTP request: its only possible event is
the Drop-save of a stale mismatched record. -/
theorem try_load_cache_no_request (store : Option Json) (username : String) :
    ∀ r, Event.request r ∈ (ApiCache.try_load_cache store username).events →
      False := by
  intro r hr
  cases store with
  | none => simp [ApiCache.try_load_cache] at hr
  | some content =>
    simp only [ApiCache.try_load_cache] at hr
    cases hdec : decodeApiCache content with
    | none => rw [hdec] at hr; simp at hr
    | some cached =>
      rw [hdec] at hr
      by_cases hne : cached.username = username
      · simp [hne] at hr
      · simp [hne] at hr

/-- The account-ID exchange always issues exactly the one POST carrying the
cached username, the password and the application ID. -/
theorem get_account_id_snd (a : Api) (r : Option Body) :
    (a.get_account_id r).2 =
      [.request (.accountId ⟨a.cache.username, a.password, APPLICATION_ID⟩)] := rfl

/-- The session-ID exchange always issues exactly the one POST carrying the
cached account ID, the password and the application ID. -/
theorem get_session_id_snd (a : Api) (r : Option Body) :
    (a.get_session_id r).2 =
      [.request (.sessionId ⟨a.cache.account_id, a.password, APPLICATION_ID⟩)] := rfl

/-- Reduction of Api::new on the refresh path: when the load treats the cache
as absent, construction prepends the load events to the derivation requests
and saves. -/
theorem new_refresh (username password : String) (store : Option Json)
    (r1 r2 : Option Body) (hu : username ≠ "") (hp : password ≠ "")
    (hload : (ApiCache.try_load_cache store username).loaded = .ok none) :
    Api.new username password store r1 r2 =
      match (Api.get_account_id ⟨password, ⟨username, "", ""⟩⟩ r1).1 with
      | .error e =>
        ⟨.err e,
         (ApiCache.try_load_cache store username).events ++
           [.request (.accountId ⟨username, password, APPLICATION_ID⟩)] ++
           [.save ⟨username, "", ""⟩],
         ApiCache.save ⟨username, "", ""⟩⟩
      | .ok aid =>
        match (Api.get_session_id ⟨password, ⟨username, aid, ""⟩⟩ r2).1 with
        | .error e =>
          ⟨.err e,
           (ApiCache.try_load_cache store username).events ++
             [.request (.accountId ⟨username, password, APPLICATION_ID⟩)] ++
             [.request (.sessionId ⟨aid, password, APPLICATION_ID⟩)] ++
             [.save ⟨username, aid, ""⟩],
           ApiCache.save ⟨username, aid, ""⟩⟩
        | .ok sid =>
          ⟨.ok ⟨password, ⟨username, aid, sid⟩⟩,
           (ApiCache.try_load_cache store username).events ++
             [.request (.accountId ⟨username, password, APPLICATION_ID⟩)] ++
             [.request (.sessionId ⟨aid, password, APPLICATION_ID⟩)] ++
             [.save ⟨username, aid, sid⟩],
           ApiCache.save ⟨username, aid, sid⟩⟩ := by
  unfold Api.new
  rw [if_neg hu, if_neg hp]
  dsimp only [ApiCache.default]
  rw [hload]
  cases hacct : (Api.get_account_id ⟨password, ⟨username, "", ""⟩⟩ r1).1 with
  | error e => rfl
  | ok aid =>
    cases hsess : (Api.get_session_id ⟨password, ⟨username, aid, ""⟩⟩ r2).1 with
    | error e => rfl
    | ok sid => rfl

end Dexcom

/-- Claim C1: with a valid matching cache, construction adopts the cached
identifiers with zero events (no derivation calls); with an absent or
mismatched cache and both derivations succeeding, construction performs the
account-ID derivation, then the session-ID derivation, and persists the
resulting cache record before returning it.  The events of the cache load
itself precede the derivation requests and contain no HTTP request (on a
username mismatch they are exactly the Drop-save of the stale record). -/
theorem C1_construction (username password : String) (store : Option Json)
    (r1 r2 : Option Body) (hu : username ≠ "") (hp : password ≠ "") :
    (∀ c, (ApiCache.try_load_cache store username).loaded = .ok (some c) →
      Api.new username password store r1 r2 = ⟨.ok ⟨password, c⟩, [], store⟩) ∧
    ((ApiCache.try_load_cache store username).loaded = .ok none →
      ∀ aid sid,
        (Api.get_account_id ⟨password, ⟨username, "", ""⟩⟩ r1).1 = .ok aid →
        (Api.get_session_id ⟨password, ⟨username, aid, ""⟩⟩ r2).1 = .ok sid →
        Api.new username password store r1 r2 =
          ⟨.ok ⟨password, ⟨username, aid, sid⟩⟩,
           (ApiCache.try_load_cache store username).events ++
             [.request (.accountId ⟨username, password, APPLICATION_ID⟩),
              .request (.sessionId ⟨aid, password, APPLICATION_ID⟩),
              .save ⟨username, aid, sid⟩],
           some (encodeApiCache ⟨username, aid, sid⟩)⟩ ∧
        (∀ r, Event.request r ∈ (ApiCache.try_load_cache store username).events →
          False)) := by
  constructor
  · intro c h
    have hcu := try_load_cache_username h
    unfold Api.new
    rw [if_neg hu, if_neg hp, try_load_cache_valid h]
    cases c with
    | mk cu ca cs =>
      simp only at hcu
      subst hcu
      rfl
  · intro hload aid sid h1 h2
    refine ⟨?_, try_load_cache_no_request store username⟩
    rw [new_refresh username password store r1 r2 hu hp hload, h1]
    dsimp only
    rw [h2]
    simp [List.append_assoc, ApiCache.save]

/-- Witness for C1: one valid-cache construction with zero events, and one
mismatched-cache refresh construction whose trace is the Drop-save of the
stale record, the two derivation requests in order, and the final save. -/
theorem C1_construction_witness :
    Api.new "alice" "pw" (ApiCache.save ⟨"alice", "cachedAcct", "cachedSess"⟩) none none =
      ⟨.ok ⟨"pw", ⟨"alice", "cachedAcct", "cachedSess"⟩⟩, [],
       ApiCache.save ⟨"alice", "cachedAcct", "cachedSess"⟩⟩ ∧
    Api.new "alice" "pw" (some (encodeApiCache ⟨"bob", "oldAcct", "oldSess"⟩))
        (some ⟨"\"acct\"", some (.str "acct")⟩) (some ⟨"\"sess\"", some (.str "sess")⟩) =
      ⟨.ok ⟨"pw", ⟨"alice", "acct", "sess"⟩⟩,
       [.save ⟨"bob", "oldAcct", "oldSess"⟩,
        .request (.accountId ⟨"alice", "pw", APPLICATION_ID⟩),
        .request (.sessionId ⟨"acct", "pw", APPLICATION_ID⟩),
        .save ⟨"alice", "acct", "sess"⟩],
       some (encodeApiCache ⟨"alice", "acct", "sess"⟩)⟩ :=
  ⟨(C1_construction "alice" "pw" (ApiCache.save ⟨"alice", "cachedAcct", "cachedSess"⟩)
      none none (by decide) (by decide)).1 ⟨"alice", "cachedAcct", "cachedSess"⟩ rfl,
   ((C1_construction "alice" "pw" (some (encodeApiCache ⟨"bob", "oldAcct", "oldSess"⟩))
      (some ⟨"\"acct\"", some (.str "acct")⟩) (some ⟨"\"sess\"", some (.str "sess")⟩)
      (by decide) (by decide)).2 rfl "acct" "sess" rfl rfl).1⟩

/-- Claim C10: when the cache was absent or invalid and a derivation fails,
construction returns the error, yet the Drop of the partially initialized
ApiCache persists a record with the requested username and an empty session
identifier (and an empty account identifier when the first derivation
failed); a subsequent construction for the same username adopts these
identifiers with zero events. -/
theorem C10_teardown_persists (username password : String) (store : Option Json)
    (r1 r2 r1b r2b : Option Body) (e : AnyError)
    (hu : username ≠ "") (hp : password ≠ "")
    (hload : (ApiCache.try_load_cache store username).loaded = .ok none)
    (herr : (Api.new username password store r1 r2).outcome = .err e) :
    ∃ acc : String,
      (Api.new username password store r1 r2).store =
        some (encodeApiCache ⟨username, acc, ""⟩) ∧
      (∀ e1, (Api.get_account_id ⟨password, ⟨username, "", ""⟩⟩ r1).1 = .error e1 →
        acc = "") ∧
      Api.new username password ((Api.new username password store r1 r2).store) r1b r2b =
        ⟨.ok ⟨password, ⟨username, acc, ""⟩⟩, [],
         (Api.new username password store r1 r2).store⟩ := by
  rw [new_refresh username password store r1 r2 hu hp hload] at herr ⊢
  cases hacct : (Api.get_account_id ⟨password, ⟨username, "", ""⟩⟩ r1).1 with
  | error ea =>
    refine ⟨"", rfl, fun e1 _ => rfl, ?_⟩
    exact new_adopts_saved ⟨username, "", ""⟩ password r1b r2b hu hp
  | ok aid =>
    rw [hacct] at herr
    dsimp only at herr ⊢
    cases hsess : (Api.get_session_id ⟨password, ⟨username, aid, ""⟩⟩ r2).1 with
    | error eb =>
      refine ⟨aid, rfl, ?_, ?_⟩
      · intro e1 h1
        exact absurd h1 (by simp)
      · exact new_adopts_saved ⟨username, aid, ""⟩ password r1b r2b hu hp
    | ok sid =>
      rw [hsess] at herr
      dsimp only at herr
      exact absurd herr (by simp)

/-- Witness for C10 at a concrete failing first derivation. -/
theorem C10_teardown_persists_witness :
    ∃ acc : String,
      (Api.new "alice" "pw" none (some ⟨"oops", none⟩) none).store =
        some (encodeApiCache ⟨"alice", acc, ""⟩) ∧
      (∀ e1, (Api.get_account_id ⟨"pw", ⟨"alice", "", ""⟩⟩ (some ⟨"oops", none⟩)).1 =
          .error e1 → acc = "") ∧
      Api.new "alice" "pw" ((Api.new "alice" "pw" none (some ⟨"oops", none⟩) none).store)
          none none =
        ⟨.ok ⟨"pw", ⟨"alice", acc, ""⟩⟩, [],
         (Api.new "alice" "pw" none (some ⟨"oops", none⟩) none).store⟩ :=
  C10_teardown_persists "alice" "pw" none (some ⟨"oops", none⟩) none none none
    (.dexcom (.Unknown "oops")) (by decide) (by decide) rfl rfl

namespace Dexcom

/-- Every get_latest_glucose call starts by issuing the readings POST carrying
the cached session identifier, minutes = 60 and maxCount = 1. -/
theorem get_latest_glucose_request (a : Api) (store : Option Json)
    (resp renew : Option Body) :
    (a.get_latest_glucose store resp renew).events.head? =
      some (.request (.measureGlucose ⟨a.cache.session_id, 60, 1⟩)) := by
  unfold Api.get_latest_glucose
  cases resp with
  | none => rfl
  | some b =>
    dsimp only
    cases hms : decodeMeasurementList b.parsed with
    | some ms => cases ms <;> rfl
    | none =>
      dsimp only
      cases he : decodeErrorResponse b.parsed with
      | none => rfl
      | some e =>
        dsimp only
        cases e.code <;> try rfl
        cases (a.get_session_id renew).1 <;> rfl

end Dexcom

/-- Claim C5: the readings request always carries the cached session
identifier with minutes = 60 and maxCount = 1; a response that parses as an
array of readings yields the first element verbatim (none when empty), with
no further events and no state change. -/
theorem C5_latest_reading (a : Api) (store : Option Json) (b : Body)
    (renew : Option Body) (ms : List GlucoseMeasurement)
    (hms : decodeMeasurementList b.parsed = some ms) :
    (∀ resp renew2, ((a.get_latest_glucose store resp renew2).events).head? =
      some (.request (.measureGlucose ⟨a.cache.session_id, 60, 1⟩))) ∧
    a.get_latest_glucose store (some b) renew =
      ⟨.ok ms.head?, a,
       [.request (.measureGlucose ⟨a.cache.session_id, 60, 1⟩)], store⟩ := by
  refine ⟨fun resp renew2 => get_latest_glucose_request a store resp renew2, ?_⟩
  unfold Api.get_latest_glucose
  dsimp only
  rw [hms]
  cases ms <;> rfl

/-- Witness for C5: a one-element readings array yields that element; the
empty array yields none. -/
theorem C5_latest_reading_witness :
    ((Api.get_latest_glucose ⟨"pw", ⟨"alice", "acct", "sess"⟩⟩ none
        (some ⟨"[]", some (.arr [])⟩) none).events).head? =
      some (.request (.measureGlucose ⟨"sess", 60, 1⟩)) ∧
    Api.get_latest_glucose ⟨"pw", ⟨"alice", "acct", "sess"⟩⟩ none
        (some ⟨"[]", some (.arr [])⟩) none =
      ⟨.ok none, ⟨"pw", ⟨"alice", "acct", "sess"⟩⟩,
       [.request (.measureGlucose ⟨"sess", 60, 1⟩)], none⟩ ∧
    Api.get_latest_glucose ⟨"pw", ⟨"alice", "acct", "sess"⟩⟩ none
        (some ⟨"[\x7b\"WT\":\"Date(1)\",\"ST\":\"s\",\"DT\":\"d\",\"Value\":150,\"Trend\":\"Flat\"\x7d]",
          some (.arr [.obj [("WT", .str "Date(1)"), ("ST", .str "s"), ("DT", .str "d"),
            ("Value", .num 150), ("Trend", .str "Flat")]])⟩) none =
      ⟨.ok (some ⟨"Date(1)", "s", "d", 150, "Flat"⟩), ⟨"pw", ⟨"alice", "acct", "sess"⟩⟩,
       [.request (.measureGlucose ⟨"sess", 60, 1⟩)], none⟩ :=
  ⟨(C5_latest_reading ⟨"pw", ⟨"alice", "acct", "sess"⟩⟩ none
      ⟨"[]", some (.arr [])⟩ none [] rfl).1 (some ⟨"[]", some (.arr [])⟩) none,
   (C5_latest_reading ⟨"pw", ⟨"alice", "acct", "sess"⟩⟩ none
      ⟨"[]", some (.arr [])⟩ none [] rfl).2,
   (C5_latest_reading ⟨"pw", ⟨"alice", "acct", "sess"⟩⟩ none
      ⟨"[\x7b\"WT\":\"Date(1)\",\"ST\":\"s\",\"DT\":\"d\",\"Value\":150,\"Trend\":\"Flat\"\x7d]",
        some (.arr [.obj [("WT", .str "Date(1)"), ("ST", .str "s"), ("DT", .str "d"),
          ("Value", .num 150), ("Trend", .str "Flat")]])⟩ none
      [⟨"Date(1)", "s", "d", 150, "Flat"⟩] rfl).2⟩

/-- Claim C2 (amended): a readings response carrying the SessionNotValid
error triggers exactly one session-renewal derivation call using the existing
account identifier; if the renewal succeeds, the updated cache is persisted
exactly once and the original session-invalid error is returned; if the
renewal itself fails, its error is returned instead and no cache write
occurs. -/
theorem C2_session_invalid_renewal (a : Api) (store : Option Json) (b : Body)
    (renew : Option Body) (er : ErrorResponse)
    (hms : decodeMeasurementList b.parsed = none)
    (herr : decodeErrorResponse b.parsed = some er)
    (hcode : er.code = .SessionInvalid) :
    (∀ sid, (a.get_session_id renew).1 = .ok sid →
      a.get_latest_glucose store (some b) renew =
        ⟨.error (.dexcom .SessionInvalid),
         ⟨a.password, ⟨a.cache.username, a.cache.account_id, sid⟩⟩,
         [.request (.measureGlucose ⟨a.cache.session_id, 60, 1⟩),
          .request (.sessionId ⟨a.cache.account_id, a.password, APPLICATION_ID⟩),
          .save ⟨a.cache.username, a.cache.account_id, sid⟩],
         ApiCache.save ⟨a.cache.username, a.cache.account_id, sid⟩⟩) ∧
    (∀ e2, (a.get_session_id renew).1 = .error e2 →
      a.get_latest_glucose store (some b) renew =
        ⟨.error e2, a,
         [.request (.measureGlucose ⟨a.cache.session_id, 60, 1⟩),
          .request (.sessionId ⟨a.cache.account_id, a.password, APPLICATION_ID⟩)],
         store⟩) := by
  unfold Api.get_latest_glucose
  dsimp only
  rw [hms]
  dsimp only
  rw [herr]
  dsimp only
  rw [hcode]
  dsimp only
  constructor
  · intro sid hsid
    rw [hsid]
    dsimp only
    rw [get_session_id_snd]
    rfl
  · intro e2 he2
    rw [he2]
    dsimp only
    rw [get_session_id_snd]
    rfl

/-- Witness for C2 at a concrete SessionNotValid response with a successful
renewal. -/
theorem C2_session_invalid_renewal_witness :
    Api.get_latest_glucose testApi none (some sessionInvalidBody)
        (some ⟨"\"newSess\"", some (.str "newSess")⟩) =
      ⟨.error (.dexcom .SessionInvalid), ⟨"pw", ⟨"alice", "acct", "newSess"⟩⟩,
       [.request (.measureGlucose ⟨"sess", 60, 1⟩),
        .request (.sessionId ⟨"acct", "pw", APPLICATION_ID⟩),
        .save ⟨"alice", "acct", "newSess"⟩],
       ApiCache.save ⟨"alice", "acct", "newSess"⟩⟩ :=
  (C2_session_invalid_renewal testApi none sessionInvalidBody
      (some ⟨"\"newSess\"", some (.str "newSess")⟩)
      ⟨.SessionInvalid, "m", "s", "t"⟩ rfl rfl rfl).1 "newSess" rfl

/-- Counterexample to C2 as stated: when the renewal derivation itself fails
(here the remote reports AccountPasswordInvalid), the call returns the
renewal error rather than the original session-invalid error, and performs no
cache write. -/
theorem C2_counterexample :
    (Api.get_latest_glucose testApi none (some sessionInvalidBody)
        (some invalidPasswordBody)).result = .error (.dexcom .InvalidPassword) ∧
    (Api.get_latest_glucose testApi none (some sessionInvalidBody)
        (some invalidPasswordBody)).result ≠ .error (.dexcom .SessionInvalid) ∧
    (Api.get_latest_glucose testApi none (some sessionInvalidBody)
        (some invalidPasswordBody)).events =
      [.request (.measureGlucose ⟨"sess", 60, 1⟩),
       .request (.sessionId ⟨"acct", "pw", APPLICATION_ID⟩)] ∧
    (Api.get_latest_glucose testApi none (some sessionInvalidBody)
        (some invalidPasswordBody)).store = none :=
  ⟨rfl, by decide, rfl, rfl⟩

namespace Dexcom

/-- The result of the account-ID exchange is the interpretation of the
response body. -/
theorem get_account_id_fst (a : Api) (b : Body) :
    (a.get_account_id (some b)).1 = interpretIdBody b := rfl

/-- The result of the session-ID exchange is the interpretation of the
response body. -/
theorem get_session_id_fst (a : Api) (b : Body) :
    (a.get_session_id (some b)).1 = interpretIdBody b := rfl

end Dexcom

/-- Claim C4 (amended): both identifier-derivation exchanges interpret the
response body in precedence order: a bare JSON string succeeds with that
string; otherwise a body deserializing as the error schema (which requires a
recognized Code) fails with the mapped code; otherwise the call fails with
the unknown-error variant holding the exact original body text.  A body whose
Code string is unrecognized fails error-schema deserialization and therefore
falls into the unknown-error case. -/
theorem C4_response_precedence (a : Api) (b : Body) :
    (∀ s, decodeBareString b.parsed = some s →
      (a.get_account_id (some b)).1 = .ok s ∧
      (a.get_session_id (some b)).1 = .ok s) ∧
    (∀ er, decodeBareString b.parsed = none →
      decodeErrorResponse b.parsed = some er →
      (a.get_account_id (some b)).1 = .error (.dexcom er.code) ∧
      (a.get_session_id (some b)).1 = .error (.dexcom er.code)) ∧
    (decodeBareString b.parsed = none → decodeErrorResponse b.parsed = none →
      (a.get_account_id (some b)).1 = .error (.dexcom (.Unknown b.raw)) ∧
      (a.get_session_id (some b)).1 = .error (.dexcom (.Unknown b.raw))) ∧
    (∀ fields s, jsonLookup "Code" fields = some (.str s) →
      decodeError (.str s) = none →
      decodeErrorResponse (some (.obj fields)) = none) := by
  refine ⟨?_, ?_, ?_, ?_⟩
  · intro s h
    rw [get_account_id_fst, get_session_id_fst]
    unfold interpretIdBody
    rw [h]
    exact ⟨rfl, rfl⟩
  · intro er h1 h2
    rw [get_account_id_fst, get_session_id_fst]
    unfold interpretIdBody
    rw [h1]
    dsimp only
    rw [h2]
    exact ⟨rfl, rfl⟩
  · intro h1 h2
    rw [get_account_id_fst, get_session_id_fst]
    unfold interpretIdBody
    rw [h1]
    dsimp only
    rw [h2]
    exact ⟨rfl, rfl⟩
  · intro fields s hlook hdec
    simp [decodeErrorResponse, hlook, hdec]

/-- Witness for C4 at concrete bodies of each kind. -/
theorem C4_response_precedence_witness :
    ((testApi.get_account_id (some ⟨"\"id\"", some (.str "id")⟩)).1 = .ok "id" ∧
     (testApi.get_session_id (some ⟨"\"id\"", some (.str "id")⟩)).1 = .ok "id") ∧
    ((testApi.get_account_id (some invalidPasswordBody)).1 =
        .error (.dexcom .InvalidPassword) ∧
     (testApi.get_session_id (some invalidPasswordBody)).1 =
        .error (.dexcom .InvalidPassword)) ∧
    ((testApi.get_account_id (some ⟨"oops", none⟩)).1 =
        .error (.dexcom (.Unknown "oops")) ∧
     (testApi.get_session_id (some ⟨"oops", none⟩)).1 =
        .error (.dexcom (.Unknown "oops"))) ∧
    decodeErrorResponse (some (.obj [("Code", .str "SomeNewCode"),
      ("Message", .str "m1"), ("SubCode", .str "s"), ("TypeName", .str "t")])) = none :=
  ⟨(C4_response_precedence testApi ⟨"\"id\"", some (.str "id")⟩).1 "id" rfl,
   (C4_response_precedence testApi invalidPasswordBody).2.1
      ⟨.InvalidPassword, "m", "s", "t"⟩ rfl rfl,
   (C4_response_precedence testApi ⟨"oops", none⟩).2.2.1 rfl rfl,
   (C4_response_precedence testApi unknownCodeBody1).2.2.2
      [("Code", .str "SomeNewCode"), ("Message", .str "m1"),
       ("SubCode", .str "s"), ("TypeName", .str "t")] "SomeNewCode" rfl rfl⟩

/-- Counterexample to C4 as stated: two bodies that both match the spec's
error schema with the same unrecognized Code produce different errors (each
carries its own full body text), so the failure is not a RemoteError mapped
from Code; the code instead falls into the unknown-error branch. -/
theorem C4_counterexample :
    specErrorSchemaCode unknownCodeBody1.parsed = some "SomeNewCode" ∧
    specErrorSchemaCode unknownCodeBody2.parsed = some "SomeNewCode" ∧
    decodeBareString unknownCodeBody1.parsed = none ∧
    decodeBareString unknownCodeBody2.parsed = none ∧
    (testApi.get_account_id (some unknownCodeBody1)).1 =
      .error (.dexcom (.Unknown unknownCodeBody1.raw)) ∧
    (testApi.get_account_id (some unknownCodeBody2)).1 =
      .error (.dexcom (.Unknown unknownCodeBody2.raw)) ∧
    (testApi.get_account_id (some unknownCodeBody1)).1 ≠
      (testApi.get_account_id (some unknownCodeBody2)).1 :=
  ⟨rfl, rfl, rfl, rfl, rfl, rfl, by decide⟩

namespace Dexcom

/-- An identifier derivation can only fail with a dexcom error that is either
the code carried by the error-schema response or Unknown holding the body. -/
theorem interpretIdBody_error_cases (b : Body) (c : Error)
    (h : interpretIdBody b = .error (.dexcom c)) :
    (∃ er, decodeErrorResponse b.parsed = some er ∧ er.code = c) ∨
      c = .Unknown b.raw := by
  unfold interpretIdBody at h
  cases hb : decodeBareString b.parsed with
  | some s => rw [hb] at h; simp at h
  | none =>
    rw [hb] at h
    dsimp only at h
    cases he : decodeErrorResponse b.parsed with
    | some er =>
      rw [he] at h
      simp only [Except.error.injEq, AnyError.dexcom.injEq] at h
      exact .inl ⟨er, rfl, h⟩
    | none =>
      rw [he] at h
      simp only [Except.error.injEq, AnyError.dexcom.injEq] at h
      exact .inr h.symm

/-- A derivation response that does not deserialize to the MaxRetriesReached
code never yields that error. -/
theorem idResponse_not_maxRetries (r : Option Body)
    (h : respCode r ≠ some .MaxRetriesReached) :
    (match r with
      | none => (Except.error AnyError.reqwest : Except AnyError String)
      | some b => interpretIdBody b) ≠ .error (.dexcom .MaxRetriesReached) := by
  cases r with
  | none => simp
  | some b =>
    intro hc
    rcases interpretIdBody_error_cases b .MaxRetriesReached hc with ⟨er, he, hcode⟩ | huk
    · exact h (by simp [respCode, he, hcode])
    · exact Error.noConfusion huk

end Dexcom

/-- Claim C8 (amended): no operation locally constructs MaxRetriesReached; it
can only be returned when a remote response's error object deserializes to
that very code.  Whenever neither oracle response carries that code, neither
derivation, nor construction, nor the readings query returns it. -/
theorem C8_max_retries_unreachable (username password : String) (store : Option Json)
    (a : Api) (r1 r2 : Option Body)
    (h1 : respCode r1 ≠ some .MaxRetriesReached)
    (h2 : respCode r2 ≠ some .MaxRetriesReached) :
    (a.get_account_id r1).1 ≠ .error (.dexcom .MaxRetriesReached) ∧
    (a.get_session_id r2).1 ≠ .error (.dexcom .MaxRetriesReached) ∧
    (Api.new username password store r1 r2).outcome ≠ .err (.dexcom .MaxRetriesReached) ∧
    (a.get_latest_glucose store r1 r2).result ≠ .error (.dexcom .MaxRetriesReached) := by
  refine ⟨idResponse_not_maxRetries r1 h1, idResponse_not_maxRetries r2 h2, ?_, ?_⟩
  · intro hc
    unfold Api.new at hc
    by_cases hu : username = ""
    · rw [if_pos hu] at hc; simp at hc
    · rw [if_neg hu] at hc
      by_cases hp : password = ""
      · rw [if_pos hp] at hc; simp at hc
      · rw [if_neg hp] at hc
        dsimp only [ApiCache.default] at hc
        cases hload : (ApiCache.try_load_cache store username).loaded with
        | error msg => rw [hload] at hc; simp at hc
        | ok oc =>
          rw [hload] at hc
          cases oc with
          | some c => simp at hc
          | none =>
            dsimp only at hc
            cases hacct : (Api.get_account_id ⟨password, ⟨username, "", ""⟩⟩ r1).1 with
            | error ea =>
              rw [hacct] at hc
              dsimp only at hc
              simp only [Outcome.err.injEq] at hc
              rw [hc] at hacct
              exact idResponse_not_maxRetries r1 h1 hacct
            | ok aid =>
              rw [hacct] at hc
              dsimp only at hc
              cases hsess : (Api.get_session_id ⟨password, ⟨username, aid, ""⟩⟩ r2).1 with
              | error eb =>
                rw [hsess] at hc
                dsimp only at hc
                simp only [Outcome.err.injEq] at hc
                rw [hc] at hsess
                exact idResponse_not_maxRetries r2 h2 hsess
              | ok sid =>
                rw [hsess] at hc
                simp at hc
  · intro hc
    unfold Api.get_latest_glucose at hc
    cases r1 with
    | none => simp at hc
    | some b =>
      dsimp only at hc
      cases hms : decodeMeasurementList b.parsed with
      | some ms =>
        rw [hms] at hc
        cases ms with
        | nil => simp at hc
        | cons m rest => simp at hc
      | none =>
        rw [hms] at hc
        dsimp only at hc
        cases he : decodeErrorResponse b.parsed with
        | none => rw [he] at hc; simp at hc
        | some er =>
          rw [he] at hc
          dsimp only at hc
          cases hcode : er.code with
          | SessionInvalid =>
            rw [hcode] at hc
            dsimp only at hc
            cases hsess : (a.get_session_id r2).1 with
            | error e2 =>
              rw [hsess] at hc
              dsimp only at hc
              simp only [Except.error.injEq] at hc
              rw [hc] at hsess
              exact idResponse_not_maxRetries r2 h2 hsess
            | ok sid =>
              rw [hsess] at hc
              simp at hc
          | MaxRetriesReached =>
            exact h1 (by simp [respCode, he, hcode])
          | InvalidPassword => rw [hcode] at hc; simp at hc
          | MaxAuthenticationAttemptsReached => rw [hcode] at hc; simp at hc
          | SessionNotFound => rw [hcode] at hc; simp at hc
          | ArgUsername => rw [hcode] at hc; simp at hc
          | ArgPassword => rw [hcode] at hc; simp at hc
          | Unknown s => rw [hcode] at hc; simp at hc

/-- Witness for C8 at concrete non-MaxRetriesReached responses. -/
theorem C8_max_retries_unreachable_witness :
    (testApi.get_account_id (some ⟨"oops", none⟩)).1 ≠
      .error (.dexcom .MaxRetriesReached) ∧
    (testApi.get_session_id (some ⟨"oops", none⟩)).1 ≠
      .error (.dexcom .MaxRetriesReached) ∧
    (Api.new "alice" "pw" none (some ⟨"oops", none⟩) (some ⟨"oops", none⟩)).outcome ≠
      .err (.dexcom .MaxRetriesReached) ∧
    (testApi.get_latest_glucose none (some ⟨"oops", none⟩)
        (some ⟨"oops", none⟩)).result ≠ .error (.dexcom .MaxRetriesReached) :=
  C8_max_retries_unreachable "alice" "pw" none testApi
    (some ⟨"oops", none⟩) (some ⟨"oops", none⟩) (by decide) (by decide)

/-- Counterexample to C8 as stated: a remote response whose error object
carries the code MaxRetriesReached makes both the readings query and the
account derivation return exactly that error. -/
theorem C8_counterexample :
    (Api.get_latest_glucose testApi none (some maxRetriesBody) none).result =
      .error (.dexcom .MaxRetriesReached) ∧
    (Api.get_account_id testApi (some maxRetriesBody)).1 =
      .error (.dexcom .MaxRetriesReached) :=
  ⟨rfl, rfl⟩
